import Mathlib

/-!
Shallow embedding of the Pong game in `src/` (a Rust/ggez project).

Conventions of the embedding:
* `f32` values are modelled as rationals `ℚ` (the claims under study concern
  signs, exact zeroes and clamping, none of which depend on rounding).
* `std::time::Instant` is modelled as a rational timestamp; a call to
  `Instant::now()` inside a method becomes an explicit `now : ℚ` argument,
  and `t.elapsed()` becomes `now - t`.
* Random draws (`rng.gen_bool`, `rng.gen_range`) become explicit arguments:
  a `Bool` for each coin flip and a `ℚ` for the error margin.
* `ggez` colors are modelled as RGB triples of naturals.
* The `HashSet<KeyCode>` of pressed keys is modelled as a duplicate-free
  `List KeyCode` with membership-guarded insertion.
-/

/-- Constants from src/src/game/constants.rs. -/
def SCREEN_WIDTH : ℚ := 800

/-- Height of the game window (constants.rs). -/
def SCREEN_HEIGHT : ℚ := 600

/-- Width of each paddle (constants.rs). -/
def PADDLE_WIDTH : ℚ := 15

/-- Height of each paddle (constants.rs). -/
def PADDLE_HEIGHT : ℚ := 100

/-- Radius of the ball (constants.rs). -/
def BALL_RADIUS : ℚ := 10

/-- Speed of the player paddle in pixels per second (constants.rs). -/
def PLAYER_PADDLE_SPEED : ℚ := 500

/-- Speed of the AI paddle in pixels per second (constants.rs). -/
def AI_PADDLE_SPEED : ℚ := 300

/-- Speed of the ball in pixels per second (constants.rs). -/
def BALL_SPEED : ℚ := 300

/-- Collision tolerance (constants.rs). -/
def COLLISION_TOLERANCE : ℚ := 1

/-- Countdown duration in seconds (constants.rs). -/
def COUNTDOWN_DURATION : ℚ := 3

/-- RGB color triple, modelling ggez Color::from_rgb. -/
structure Rgb where
  r : ℕ
  g : ℕ
  b : ℕ
deriving DecidableEq, Repr

/-- The keycodes the game reacts to; every other key is `Other`. -/
inductive KeyCode where
  | Up
  | Down
  | S
  | P
  | E
  | R
  | Other
deriving DecidableEq, Repr

/-- The paddle component (src/src/components/paddle.rs). -/
structure Paddle where
  x : ℚ
  y : ℚ
  color : Rgb
deriving DecidableEq, Repr

/-- Paddle::new - a paddle at the given position, white by default. -/
def Paddle.new (x y : ℚ) : Paddle :=
  { x := x, y := y, color := { r := 255, g := 255, b := 255 } }

/-- Rust f32::clamp(lo, hi): lo when below lo, hi when above hi, else identity. -/
def rustClamp (v lo hi : ℚ) : ℚ :=
  if v < lo then lo else if v > hi then hi else v

/-- Paddle::move_by - add the amount to y, then clamp y into
the on-screen interval [0, SCREEN_HEIGHT - PADDLE_HEIGHT]. -/
def Paddle.move_by (p : Paddle) (amount : ℚ) : Paddle :=
  { p with y := rustClamp (p.y + amount) 0 (SCREEN_HEIGHT - PADDLE_HEIGHT) }

/-- The ball component (src/src/components/ball.rs). -/
structure Ball where
  x : ℚ
  y : ℚ
  dx : ℚ
  dy : ℚ
  color : Rgb
deriving DecidableEq, Repr

/-- Ball::new - stationary yellow ball at the center of the screen. -/
def Ball.new : Ball :=
  { x := SCREEN_WIDTH / 2, y := SCREEN_HEIGHT / 2, dx := 0, dy := 0,
    color := { r := 255, g := 255, b := 0 } }

/-- Ball::reset - recenter the ball and immediately assign a direction:
dx from the last winner (Some(1) gives -BALL_SPEED, Some(2) gives BALL_SPEED,
otherwise the rngH coin decides), dy from the rngV coin. -/
def Ball.reset (b : Ball) (last_winner : Option ℕ) (rngH rngV : Bool) : Ball :=
  { b with
    x := SCREEN_WIDTH / 2
    y := SCREEN_HEIGHT / 2
    dx :=
      match last_winner with
      | some 1 => -BALL_SPEED
      | some 2 => BALL_SPEED
      | _ => if rngH then BALL_SPEED else -BALL_SPEED
    dy := if rngV then BALL_SPEED else -BALL_SPEED }

/-- Ball::update - advance the position by velocity times delta. -/
def Ball.update (b : Ball) (delta : ℚ) : Ball :=
  { b with x := b.x + b.dx * delta, y := b.y + b.dy * delta }

/-- Ball::reverse_dx - flip the horizontal velocity. -/
def Ball.reverse_dx (b : Ball) : Ball := { b with dx := -b.dx }

/-- Ball::reverse_dy - flip the vertical velocity. -/
def Ball.reverse_dy (b : Ball) : Ball := { b with dy := -b.dy }

/-- Ball::stop - zero both velocity components. -/
def Ball.stop (b : Ball) : Ball := { b with dx := 0, dy := 0 }

/-- Ball::is_moving - true when either velocity component is nonzero. -/
def Ball.is_moving (b : Ball) : Bool := b.dx ≠ 0 || b.dy ≠ 0

/-- The score component (src/src/components/score.rs). -/
structure Score where
  player1 : ℕ
  player2 : ℕ
  flash_winner : Option ℕ
  flash_start : Option ℚ
deriving DecidableEq, Repr

/-- Score::new - zero scores, no flash. -/
def Score.new : Score :=
  { player1 := 0, player2 := 0, flash_winner := none, flash_start := none }

/-- Score::increment_player1 - one point for player 1, flash starts now. -/
def Score.increment_player1 (sc : Score) (now : ℚ) : Score :=
  { sc with player1 := sc.player1 + 1, flash_winner := some 1, flash_start := some now }

/-- Score::increment_player2 - one point for player 2, flash starts now. -/
def Score.increment_player2 (sc : Score) (now : ℚ) : Score :=
  { sc with player2 := sc.player2 + 1, flash_winner := some 2, flash_start := some now }

/-- Score::reset - zero scores and clear the flash state. -/
def Score.reset (sc : Score) : Score :=
  { sc with player1 := 0, player2 := 0, flash_winner := none, flash_start := none }

/-- The branch condition of Score::draw: the highlighted (flash) rendering is
chosen exactly when a flash timestamp exists and less than 3 seconds elapsed. -/
def Score.is_flash_active (sc : Score) (now : ℚ) : Bool :=
  match sc.flash_start with
  | some fs => decide (now - fs < 3)
  | none => false

/-- Membership-guarded insertion, modelling HashSet::insert. -/
def insertKey (keys : List KeyCode) (k : KeyCode) : List KeyCode :=
  if k ∈ keys then keys else k :: keys

/-- The full game state (src/src/game/state.rs, struct GameState). -/
structure GameState where
  player1 : Paddle
  player2 : Paddle
  ball : Ball
  score : Score
  game_running : Bool
  pressed_keys : List KeyCode
  last_winner : Option ℕ
  countdown_start : Option ℚ
  point_scored : Bool
  should_exit : Bool
  game_over : Bool
  winner : Option ℕ
deriving DecidableEq, Repr

/-- GameState::new - both paddles centered on their side, stationary centered
ball, zero scores, nothing running. (The constructor body re-assigns the
ball position and velocity to the values Ball::new already chose.) -/
def GameState.new : GameState :=
  { player1 := Paddle.new 0 ((SCREEN_HEIGHT - PADDLE_HEIGHT) / 2)
    player2 := Paddle.new (SCREEN_WIDTH - PADDLE_WIDTH) ((SCREEN_HEIGHT - PADDLE_HEIGHT) / 2)
    ball := { Ball.new with x := SCREEN_WIDTH / 2, y := SCREEN_HEIGHT / 2, dx := 0, dy := 0 }
    score := Score.new
    game_running := false
    pressed_keys := []
    last_winner := none
    countdown_start := none
    point_scored := false
    should_exit := false
    game_over := false
    winner := none }

/-- GameState::start_ball - launch the ball when the countdown ends.
With a known last winner the horizontal direction is deterministic
(winner 2 sends the ball rightward, winner 1 leftward); otherwise the
rngH coin decides. The vertical direction always comes from the rngV
coin. The point_scored flag is cleared. -/
def GameState.start_ball (s : GameState) (rngH rngV : Bool) : GameState :=
  { s with
    ball := { s.ball with
      dx :=
        match s.last_winner with
        | some 2 => BALL_SPEED
        | some 1 => -BALL_SPEED
        | _ => if rngH then BALL_SPEED else -BALL_SPEED
      dy := if rngV then BALL_SPEED else -BALL_SPEED }
    point_scored := false }

/-- Rust f32::signum restricted to nonzero inputs (the caller guards with
an absolute-value test); at 0 Rust yields 1, matching this definition. -/
def rustSignum (v : ℚ) : ℚ := if v < 0 then -1 else 1

/-- GameState::handle_countdown - drive the AI paddle toward the vertical
middle while the countdown runs, and once the elapsed time reaches
COUNTDOWN_DURATION clear the countdown and launch the ball. -/
def GameState.handle_countdown (s : GameState) (countdown_start now delta : ℚ)
    (rngH rngV : Bool) : GameState :=
  let elapsed := now - countdown_start
  let middle_position := (SCREEN_HEIGHT - PADDLE_HEIGHT) / 2
  let distance_to_middle := middle_position - s.player2.y
  let s1 :=
    if |distance_to_middle| > 1 then
      { s with player2 := s.player2.move_by (rustSignum distance_to_middle * AI_PADDLE_SPEED * delta) }
    else s
  if elapsed ≥ COUNTDOWN_DURATION then
    GameState.start_ball { s1 with countdown_start := none } rngH rngV
  else s1

/-- GameState::handle_input - move the human paddle up while Up is held and
down while Down is held, at PLAYER_PADDLE_SPEED times delta. -/
def GameState.handle_input (s : GameState) (delta : ℚ) : GameState :=
  let s1 :=
    if KeyCode.Up ∈ s.pressed_keys then
      { s with player1 := s.player1.move_by (-PLAYER_PADDLE_SPEED * delta) }
    else s
  if KeyCode.Down ∈ s1.pressed_keys then
    { s1 with player1 := s1.player1.move_by (PLAYER_PADDLE_SPEED * delta) }
  else s1

/-- GameState::check_winner - when the given player has at least 3 points,
end the game: game_over set, winner recorded, game stopped, ball dimmed,
last_winner cleared. Below 3 points nothing changes. -/
def GameState.check_winner (s : GameState) (player : ℕ) : GameState :=
  let score := if player = 1 then s.score.player1 else s.score.player2
  if score ≥ 3 then
    { s with
      game_over := true
      winner := some player
      game_running := false
      ball := { s.ball with color := { r := 30, g := 30, b := 30 } }
      last_winner := none }
  else s

/-- GameState::reset_ball - recenter the ball with zero velocity, set the
point_scored flag, and start a new countdown exactly when the game is
still running and not over. -/
def GameState.reset_ball (s : GameState) (now : ℚ) : GameState :=
  let s1 :=
    { s with
      ball := { s.ball with x := SCREEN_WIDTH / 2, y := SCREEN_HEIGHT / 2, dx := 0, dy := 0 }
      point_scored := true }
  if s1.game_running && !s1.game_over then
    { s1 with countdown_start := some now }
  else s1

/-- The top and bottom wall bounce, first block of
GameState::handle_collisions (state.rs lines 154-163): snap the ball just
inside the crossed wall and force the vertical velocity away from it. -/
def GameState.bounce_walls (s : GameState) : GameState :=
  if s.ball.y - BALL_RADIUS ≤ COLLISION_TOLERANCE then
    { s with ball := { s.ball with y := BALL_RADIUS + COLLISION_TOLERANCE, dy := |s.ball.dy| } }
  else if s.ball.y + BALL_RADIUS ≥ SCREEN_HEIGHT - COLLISION_TOLERANCE then
    { s with ball := { s.ball with
                       y := SCREEN_HEIGHT - BALL_RADIUS - COLLISION_TOLERANCE
                       dy := -|s.ball.dy| } }
  else s

/-- The Player 1 paddle bounce, second block of GameState::handle_collisions
(state.rs lines 165-171): force the horizontal velocity rightward. -/
def GameState.bounce_paddle1 (s : GameState) : GameState :=
  if s.ball.x - BALL_RADIUS ≤ PADDLE_WIDTH ∧ s.ball.y ≥ s.player1.y ∧
      s.ball.y ≤ s.player1.y + PADDLE_HEIGHT then
    { s with ball := { s.ball with dx := |s.ball.dx| } }
  else s

/-- The Player 2 paddle bounce, third block of GameState::handle_collisions
(state.rs lines 173-179): force the horizontal velocity leftward. -/
def GameState.bounce_paddle2 (s : GameState) : GameState :=
  if s.ball.x + BALL_RADIUS ≥ SCREEN_WIDTH - PADDLE_WIDTH ∧ s.ball.y ≥ s.player2.y ∧
      s.ball.y ≤ s.player2.y + PADDLE_HEIGHT then
    { s with ball := { s.ball with dx := -|s.ball.dx| } }
  else s

/-- GameState::handle_collisions - the three bounce blocks run in sequence
on the mutable state, then the scoring checks on the horizontal boundaries
(state.rs lines 181-195). The now argument stands for the Instant::now()
timestamps drawn inside (score flash, new countdown). -/
def GameState.handle_collisions (s : GameState) (now : ℚ) : GameState :=
  let s3 := s.bounce_walls.bounce_paddle1.bounce_paddle2
  if s3.ball.x - BALL_RADIUS ≤ 0 then
    GameState.reset_ball
      (GameState.check_winner
        { s3 with score := s3.score.increment_player2 now, last_winner := some 2 } 2) now
  else if s3.ball.x + BALL_RADIUS ≥ SCREEN_WIDTH then
    GameState.reset_ball
      (GameState.check_winner
        { s3 with score := s3.score.increment_player1 now, last_winner := some 1 } 1) now
  else s3

/-- GameState::update_ai_paddle - while the ball approaches the AI side
(dx positive), chase the ball vertically at AI_PADDLE_SPEED - 10, with a
per-frame hesitation coin (true freezes the paddle this frame) and a
random error margin added to the target. -/
def GameState.update_ai_paddle (s : GameState) (delta : ℚ) (hes : Bool) (err : ℚ) : GameState :=
  if s.ball.dx > 0 then
    let paddle_center := s.player2.y + PADDLE_HEIGHT / 2
    let reaction_speed := AI_PADDLE_SPEED - 10
    let hesitation : ℚ := if hes then 0 else 1
    if s.ball.y + err > paddle_center then
      { s with player2 := s.player2.move_by (reaction_speed * hesitation * delta) }
    else if s.ball.y + err < paddle_center then
      { s with player2 := s.player2.move_by (-reaction_speed * hesitation * delta) }
    else s
  else s

/-- The random draws one frame may consume: the two serve coins, the AI
hesitation coin and the AI error margin. -/
structure FrameRng where
  launchH : Bool
  launchV : Bool
  hes : Bool
  err : ℚ
deriving DecidableEq, Repr

/-- EventHandler::update for GameState - one frame: an exiting state is left
untouched; an active countdown is handled (even when the game is not
running); then, when running, human input is applied and, outside a
countdown, the ball advances, collisions are resolved and the AI moves. -/
def GameState.update (s : GameState) (now delta : ℚ) (r : FrameRng) : GameState :=
  if s.should_exit then s
  else
    let s1 :=
      match s.countdown_start with
      | some cs => s.handle_countdown cs now delta r.launchH r.launchV
      | none => s
    if s1.game_running then
      let s2 := s1.handle_input delta
      if s2.countdown_start = none then
        let s3 := { s2 with ball := s2.ball.update delta }
        let s4 := s3.handle_collisions now
        s4.update_ai_paddle delta r.hes r.err
      else s2
    else s1

/-- EventHandler::key_down_event for GameState - S starts the game (only
when not running and not over), P pauses, E requests exit, R resets
everything, and any other key joins the pressed-key set. -/
def GameState.key_down_event (s : GameState) (k : KeyCode) (now : ℚ) : GameState :=
  match k with
  | KeyCode.S =>
      if !s.game_running && !s.game_over then
        { s with game_running := true, countdown_start := some now }
      else s
  | KeyCode.P => { s with game_running := false }
  | KeyCode.E => { s with should_exit := true }
  | KeyCode.R =>
      { s with
        score := s.score.reset
        game_running := false
        game_over := false
        winner := none
        ball := { s.ball with
                  x := SCREEN_WIDTH / 2
                  y := SCREEN_HEIGHT / 2
                  dx := 0
                  dy := 0
                  color := { r := 255, g := 255, b := 0 } }
        player1 := { s.player1 with y := (SCREEN_HEIGHT - PADDLE_HEIGHT) / 2 }
        player2 := { s.player2 with y := (SCREEN_HEIGHT - PADDLE_HEIGHT) / 2 }
        point_scored := false
        countdown_start := none
        last_winner := none }
  | _ => { s with pressed_keys := insertKey s.pressed_keys k }

/-- EventHandler::key_up_event for GameState - drop the key from the set. -/
def GameState.key_up_event (s : GameState) (k : KeyCode) : GameState :=
  { s with pressed_keys := s.pressed_keys.erase k }

/-- One external event: a key press (with its timestamp), a key release,
or a frame update with its timestamp, delta and random draws. -/
inductive Event where
  | keyDown (k : KeyCode) (now : ℚ)
  | keyUp (k : KeyCode)
  | frame (now delta : ℚ) (r : FrameRng)
deriving DecidableEq, Repr

/-- Apply one event to the game state. -/
def step (s : GameState) (e : Event) : GameState :=
  match e with
  | Event.keyDown k now => s.key_down_event k now
  | Event.keyUp k => s.key_up_event k
  | Event.frame now delta r => s.update now delta r

/-- Run a sequence of events from a state. -/
def run (s : GameState) (es : List Event) : GameState := es.foldl step s

/-- True of an event that presses the pause key. -/
def Event.isPause : Event → Bool
  | Event.keyDown KeyCode.P _ => true
  | _ => false

/-- C1: the claim asserts the serve goes away from the previous winner
(Player 1 winning would give positive dx). The code does the opposite:
with last winner Player 1 the launch sets dx to -BALL_SPEED, toward
Player 1. Shown here at an explicit state with both serve coins fixed. -/
theorem C1_counterexample :
    ({ GameState.new with last_winner := some 1 }.start_ball true true).ball.dx = -BALL_SPEED ∧
    ¬ 0 < ({ GameState.new with last_winner := some 1 }.start_ball true true).ball.dx := by
  decide

/-- C1 (amended): for every launch with a known last winner the horizontal
velocity sign points toward the winner, deterministically: Player 1 winning
gives dx = -BALL_SPEED (leftward, toward Player 1), Player 2 winning gives
dx = BALL_SPEED (rightward, toward Player 2); neither serve coin matters. -/
theorem C1_serve_toward_winner (s : GameState) (rngH rngV : Bool) :
    (s.last_winner = some 1 → (s.start_ball rngH rngV).ball.dx = -BALL_SPEED) ∧
    (s.last_winner = some 2 → (s.start_ball rngH rngV).ball.dx = BALL_SPEED) := by
  constructor <;> intro h <;> simp [GameState.start_ball, h]

/-- C1 witness: the amended theorem applied at an explicit state where
Player 1 just won, with concrete serve coins. -/
theorem C1_witness :
    ({ GameState.new with last_winner := some 1 } : GameState).last_winner = some 1 ∧
    (({ GameState.new with last_winner := some 1 } : GameState).start_ball true false).ball.dx
      = -BALL_SPEED :=
  ⟨rfl, (C1_serve_toward_winner { GameState.new with last_winner := some 1 } true false).1 rfl⟩

/-- C3: when the checked player has reached at least 3 points the win check
sets game_over, stops the game, records that player as winner and clears
last_winner; below 3 points the state is left completely unchanged. -/
theorem C3_win_check (s : GameState) (p : ℕ) :
    (3 ≤ (if p = 1 then s.score.player1 else s.score.player2) →
      (s.check_winner p).game_over = true ∧
      (s.check_winner p).game_running = false ∧
      (s.check_winner p).winner = some p ∧
      (s.check_winner p).last_winner = none) ∧
    ((if p = 1 then s.score.player1 else s.score.player2) < 3 →
      s.check_winner p = s) := by
  unfold GameState.check_winner
  constructor
  · intro h
    rw [if_pos h]
    exact ⟨rfl, rfl, rfl, rfl⟩
  · intro h
    rw [if_neg (by exact not_le.mpr h)]

/-- C3 witness: the win check applied at an explicit state where Player 1
has exactly 3 points, and at one where Player 1 has 2 points. -/
theorem C3_witness :
    (3 ≤ ({ GameState.new with
              score := { Score.new with player1 := 3 } } : GameState).score.player1 ∧
      ({ GameState.new with
          score := { Score.new with player1 := 3 } }.check_winner 1).game_over = true) ∧
    ({ GameState.new with
        score := { Score.new with player1 := 2 } }.check_winner 1 =
      { GameState.new with score := { Score.new with player1 := 2 } }) :=
  ⟨⟨by decide,
    ((C3_win_check { GameState.new with score := { Score.new with player1 := 3 } } 1).1
      (by decide)).1⟩,
   (C3_win_check { GameState.new with score := { Score.new with player1 := 2 } } 1).2
     (by decide)⟩

/-- C6: the claim asserts the Ball reset operation leaves both velocity
components exactly zero. The code assigns a serve direction immediately:
resetting with last winner Player 1 gives dx = -BALL_SPEED, not zero. -/
theorem C6_counterexample :
    (Ball.new.reset (some 1) true true).dx = -BALL_SPEED ∧
    ¬ (Ball.new.reset (some 1) true true).dx = 0 := by
  decide


/-- C6 (amended): the state-level ball reset (GameState::reset_ball), the one
run when a point is scored, repositions the ball to the field center and
zeroes both velocity components for every value of last_winner; the
component-level Ball::reset instead assigns magnitude-BALL_SPEED velocity
components immediately. -/
theorem C6_reset_ball_zeroes (s : GameState) (now : ℚ) (lw : Option ℕ) (rngH rngV : Bool) :
    (s.reset_ball now).ball.x = SCREEN_WIDTH / 2 ∧
    (s.reset_ball now).ball.y = SCREEN_HEIGHT / 2 ∧
    (s.reset_ball now).ball.dx = 0 ∧
    (s.reset_ball now).ball.dy = 0 ∧
    (s.ball.reset lw rngH rngV).x = SCREEN_WIDTH / 2 ∧
    (s.ball.reset lw rngH rngV).y = SCREEN_HEIGHT / 2 ∧
    |(s.ball.reset lw rngH rngV).dx| = BALL_SPEED ∧
    |(s.ball.reset lw rngH rngV).dy| = BALL_SPEED := by
  refine ⟨?_, ?_, ?_, ?_, rfl, rfl, ?_, ?_⟩
  · simp only [GameState.reset_ball]; split_ifs <;> rfl
  · simp only [GameState.reset_ball]; split_ifs <;> rfl
  · simp only [GameState.reset_ball]; split_ifs <;> rfl
  · simp only [GameState.reset_ball]; split_ifs <;> rfl
  · simp only [Ball.reset]
    split <;> cases rngH <;> norm_num [BALL_SPEED]
  · cases rngV <;> norm_num [Ball.reset, BALL_SPEED]

/-- C8: Paddle::move_by sets the offset to the clamp of y + amount into
[0, SCREEN_HEIGHT - PADDLE_HEIGHT]: it equals the max/min form, always
lands inside the interval, and any delta pushing past a bound leaves the
offset exactly at that bound. -/
theorem C8_move_by_clamp (p : Paddle) (a : ℚ) :
    (p.move_by a).y = max 0 (min (p.y + a) (SCREEN_HEIGHT - PADDLE_HEIGHT)) ∧
    0 ≤ (p.move_by a).y ∧
    (p.move_by a).y ≤ SCREEN_HEIGHT - PADDLE_HEIGHT ∧
    (p.y + a ≤ 0 → (p.move_by a).y = 0) ∧
    (SCREEN_HEIGHT - PADDLE_HEIGHT ≤ p.y + a →
      (p.move_by a).y = SCREEN_HEIGHT - PADDLE_HEIGHT) := by
  have hb : (0 : ℚ) ≤ SCREEN_HEIGHT - PADDLE_HEIGHT := by
    norm_num [SCREEN_HEIGHT, PADDLE_HEIGHT]
  have hmain : (p.move_by a).y = max 0 (min (p.y + a) (SCREEN_HEIGHT - PADDLE_HEIGHT)) := by
    simp only [Paddle.move_by, rustClamp]
    split_ifs with h1 h2
    · rw [max_eq_left (le_trans (min_le_left _ _) (le_of_lt h1))]
    · rw [min_eq_right (le_of_lt h2), max_eq_right hb]
    · rw [min_eq_left (not_lt.mp h2), max_eq_right (not_lt.mp h1)]
  refine ⟨hmain, ?_, ?_, ?_, ?_⟩
  · rw [hmain]; exact le_max_left _ _
  · rw [hmain]; exact max_le hb (min_le_right _ _)
  · intro h; rw [hmain, min_eq_left (h.trans hb), max_eq_left h]
  · intro h; rw [hmain, min_eq_right h, max_eq_right hb]

/-- C8 witness: a huge downward delta from the vertical center lands the
paddle exactly on the bottom bound and a huge upward delta from there
lands it exactly on the top bound. -/
theorem C8_witness :
    SCREEN_HEIGHT - PADDLE_HEIGHT ≤ (250 : ℚ) + 10000 ∧
    ((Paddle.new 0 250).move_by 10000).y = SCREEN_HEIGHT - PADDLE_HEIGHT ∧
    (500 : ℚ) + (-10000) ≤ 0 ∧
    (((Paddle.new 0 250).move_by 10000).move_by (-10000)).y = 0 := by
  refine ⟨by norm_num [SCREEN_HEIGHT, PADDLE_HEIGHT], ?_, by norm_num, ?_⟩
  · exact (C8_move_by_clamp (Paddle.new 0 250) 10000).2.2.2.2
      (by norm_num [SCREEN_HEIGHT, PADDLE_HEIGHT, Paddle.new])
  · exact (C8_move_by_clamp ((Paddle.new 0 250).move_by 10000) (-10000)).2.2.2.1
      (by norm_num [SCREEN_HEIGHT, PADDLE_HEIGHT, Paddle.new, Paddle.move_by, rustClamp])

/-- C9: awarding a point increments exactly the scoring side, marks that
side as the flash winner, and makes the flash active at the moment of the
award; the flash is reported active precisely when a flash timestamp
exists and strictly less than 3 seconds have elapsed since it. -/
theorem C9_award_point_flash (sc : Score) (now q : ℚ) :
    ((sc.increment_player1 now).player1 = sc.player1 + 1 ∧
     (sc.increment_player1 now).player2 = sc.player2 ∧
     (sc.increment_player1 now).flash_winner = some 1 ∧
     (sc.increment_player1 now).is_flash_active now = true) ∧
    ((sc.increment_player2 now).player2 = sc.player2 + 1 ∧
     (sc.increment_player2 now).player1 = sc.player1 ∧
     (sc.increment_player2 now).flash_winner = some 2 ∧
     (sc.increment_player2 now).is_flash_active now = true) ∧
    (sc.is_flash_active q = true ↔ ∃ t, sc.flash_start = some t ∧ q - t < 3) := by
  refine ⟨⟨rfl, rfl, rfl, ?_⟩, ⟨rfl, rfl, rfl, ?_⟩, ?_⟩
  · simp [Score.is_flash_active, Score.increment_player1]
  · simp [Score.is_flash_active, Score.increment_player2]
  · cases h : sc.flash_start with
    | none => simp [Score.is_flash_active, h]
    | some t => simp [Score.is_flash_active, h]

/-- C10: with game_over set, pressing S leaves the state completely
unchanged, and no key other than R can set game_running back to true. -/
theorem C10_start_ignored_when_game_over (s : GameState) (now : ℚ)
    (h : s.game_over = true) :
    s.key_down_event KeyCode.S now = s ∧
    (s.game_running = false →
      ∀ k : KeyCode, k ≠ KeyCode.R → (s.key_down_event k now).game_running = false) := by
  constructor
  · simp [GameState.key_down_event, h]
  · intro hrun k hk
    cases k <;> simp_all [GameState.key_down_event]

/-- C10 witness: a game-over state at which pressing S changes nothing. -/
theorem C10_witness :
    ({ GameState.new with game_over := true } : GameState).game_over = true ∧
    ({ GameState.new with game_over := true } : GameState).key_down_event KeyCode.S 5 =
      { GameState.new with game_over := true } :=
  ⟨rfl, (C10_start_ignored_when_game_over { GameState.new with game_over := true } 5 rfl).1⟩

/-- C5: the claim asserts a frame update changes nothing while the game is
not running. After Start then Pause the game is not running but the
countdown is still active, and the frame in which the countdown expires
launches the ball: its horizontal velocity changes. -/
theorem C5_counterexample :
    (run GameState.new [Event.keyDown KeyCode.S 0, Event.keyDown KeyCode.P 0]).game_running
        = false ∧
    ((run GameState.new [Event.keyDown KeyCode.S 0, Event.keyDown KeyCode.P 0]).update 3 (1/100)
          { launchH := true, launchV := true, hes := true, err := 0 }).ball.dx ≠
      (run GameState.new [Event.keyDown KeyCode.S 0, Event.keyDown KeyCode.P 0]).ball.dx := by
  constructor
  · norm_num [run, step, GameState.key_down_event, GameState.new]
  · norm_num [run, step, GameState.update, GameState.key_down_event, GameState.handle_countdown,
      GameState.start_ball, GameState.handle_input, GameState.check_winner,
      GameState.handle_collisions, GameState.reset_ball, GameState.update_ai_paddle,
      GameState.new, Ball.new, Ball.update, Paddle.new, Paddle.move_by, rustClamp, rustSignum,
      Score.new, insertKey, SCREEN_WIDTH, SCREEN_HEIGHT, PADDLE_WIDTH, PADDLE_HEIGHT,
      BALL_RADIUS, PLAYER_PADDLE_SPEED, AI_PADDLE_SPEED, BALL_SPEED, COLLISION_TOLERANCE,
      COUNTDOWN_DURATION]

/-- C5 (amended): with game_running false AND no active countdown, a frame
update leaves the entire state unchanged; an active countdown, however,
persists through pause and keeps recentering the AI paddle and eventually
launches the ball even while the game is not running. -/
theorem C5_no_frame_effect_without_countdown (s : GameState) (now delta : ℚ) (r : FrameRng)
    (h1 : s.game_running = false) (h2 : s.countdown_start = none) :
    s.update now delta r = s := by
  simp [GameState.update, h1, h2]

/-- C5 witness: the amended theorem applied to the initial state. -/
theorem C5_witness :
    GameState.new.game_running = false ∧
    GameState.new.countdown_start = none ∧
    GameState.new.update 1 (1/60) { launchH := true, launchV := false, hes := false, err := 0 }
      = GameState.new :=
  ⟨rfl, rfl,
    C5_no_frame_effect_without_countdown GameState.new 1 (1/60)
      { launchH := true, launchV := false, hes := false, err := 0 } rfl rfl⟩

/-- While the countdown has not yet expired, handle_countdown only moves the
AI paddle: every other field of the state is untouched. -/
lemma handle_countdown_of_lt (s : GameState) (cs now delta : ℚ) (rH rV : Bool)
    (h : now - cs < COUNTDOWN_DURATION) :
    (s.handle_countdown cs now delta rH rV).player1 = s.player1 ∧
    (s.handle_countdown cs now delta rH rV).ball = s.ball ∧
    (s.handle_countdown cs now delta rH rV).countdown_start = s.countdown_start ∧
    (s.handle_countdown cs now delta rH rV).game_running = s.game_running ∧
    (s.handle_countdown cs now delta rH rV).game_over = s.game_over ∧
    (s.handle_countdown cs now delta rH rV).pressed_keys = s.pressed_keys := by
  simp only [GameState.handle_countdown]
  rw [if_neg (not_le.mpr h)]
  split_ifs <;> exact ⟨rfl, rfl, rfl, rfl, rfl, rfl⟩

/-- handle_input only moves the human paddle: ball, countdown, flags and the
key set are untouched. -/
lemma handle_input_fields (s : GameState) (delta : ℚ) :
    (s.handle_input delta).ball = s.ball ∧
    (s.handle_input delta).countdown_start = s.countdown_start ∧
    (s.handle_input delta).game_running = s.game_running ∧
    (s.handle_input delta).game_over = s.game_over := by
  simp only [GameState.handle_input]
  split_ifs <;> exact ⟨rfl, rfl, rfl, rfl⟩

/-- With Up held and Down not held, handle_input moves the human paddle up
by PLAYER_PADDLE_SPEED times delta (clamped). -/
lemma handle_input_up_only (s : GameState) (delta : ℚ)
    (hup : KeyCode.Up ∈ s.pressed_keys) (hdn : KeyCode.Down ∉ s.pressed_keys) :
    s.handle_input delta = { s with player1 := s.player1.move_by (-PLAYER_PADDLE_SPEED * delta) } := by
  simp only [GameState.handle_input]
  rw [if_pos hup]
  dsimp only
  rw [if_neg hdn]

/-- C7: the claim asserts held keys do not move the human paddle during the
countdown. After Start (countdown active, far from expiry) with Up held,
one frame moves the human paddle from 250 up to 200. -/
theorem C7_counterexample :
    (run GameState.new [Event.keyDown KeyCode.S 0, Event.keyDown KeyCode.Up 0]).game_running
        = true ∧
    (run GameState.new [Event.keyDown KeyCode.S 0, Event.keyDown KeyCode.Up 0]).countdown_start
        = some 0 ∧
    KeyCode.Up ∈ (run GameState.new
        [Event.keyDown KeyCode.S 0, Event.keyDown KeyCode.Up 0]).pressed_keys ∧
    ((run GameState.new [Event.keyDown KeyCode.S 0, Event.keyDown KeyCode.Up 0]).update 1 (1/10)
          { launchH := true, launchV := true, hes := true, err := 0 }).player1.y ≠
      (run GameState.new [Event.keyDown KeyCode.S 0, Event.keyDown KeyCode.Up 0]).player1.y := by
  refine ⟨by decide, by decide, by decide, ?_⟩
  norm_num +decide [run, step, GameState.update, GameState.key_down_event, GameState.handle_countdown,
    GameState.start_ball, GameState.handle_input, GameState.new, Ball.new, Paddle.new,
    Paddle.move_by, rustClamp, rustSignum, Score.new, insertKey, SCREEN_WIDTH, SCREEN_HEIGHT,
    PADDLE_WIDTH, PADDLE_HEIGHT, PLAYER_PADDLE_SPEED, AI_PADDLE_SPEED, COUNTDOWN_DURATION]

/-- C7 (amended): human input is applied whenever the game is running,
countdown or not: during a running, unexpired countdown with Up held (and
Down not held), a frame update moves the human paddle up by
PLAYER_PADDLE_SPEED times delta, clamped to the screen. -/
theorem C7_input_applied_during_countdown (s : GameState) (t now delta : ℚ) (r : FrameRng)
    (hex : s.should_exit = false) (hcd : s.countdown_start = some t)
    (hlt : now - t < COUNTDOWN_DURATION) (hrun : s.game_running = true)
    (hup : KeyCode.Up ∈ s.pressed_keys) (hdn : KeyCode.Down ∉ s.pressed_keys) :
    (s.update now delta r).player1.y =
      rustClamp (s.player1.y + -PLAYER_PADDLE_SPEED * delta) 0 (SCREEN_HEIGHT - PADDLE_HEIGHT) := by
  obtain ⟨hp1, hb, hc, hg, ho, hk⟩ :=
    handle_countdown_of_lt s t now delta r.launchH r.launchV hlt
  simp only [GameState.update, hex, Bool.false_eq_true, if_false, hcd]
  rw [if_pos (by rw [hg]; exact hrun)]
  rw [handle_input_up_only _ delta (by rw [hk]; exact hup) (by rw [hk]; exact hdn)]
  dsimp only
  rw [if_neg (by rw [hc, hcd]; exact fun h => Option.noConfusion h)]
  dsimp only
  rw [hp1, Paddle.move_by]

/-- C7 witness: the amended theorem applied to the state reached by Start
then holding Up, one frame later. -/
theorem C7_witness :
    ((run GameState.new [Event.keyDown KeyCode.S 0, Event.keyDown KeyCode.Up 0]).update 1 (1/10)
        { launchH := true, launchV := true, hes := true, err := 0 }).player1.y =
      rustClamp ((run GameState.new
          [Event.keyDown KeyCode.S 0, Event.keyDown KeyCode.Up 0]).player1.y +
        -PLAYER_PADDLE_SPEED * (1/10)) 0 (SCREEN_HEIGHT - PADDLE_HEIGHT) := by
  exact C7_input_applied_during_countdown
    (run GameState.new [Event.keyDown KeyCode.S 0, Event.keyDown KeyCode.Up 0]) 0 1 (1/10)
    { launchH := true, launchV := true, hes := true, err := 0 }
    (by decide) (by decide) (by norm_num [COUNTDOWN_DURATION]) (by decide) (by decide) (by decide)

/-- The three bounce blocks only touch the ball's y, dy and dx: its x and
color, the score, the tags, the countdown and the flags are unchanged. -/
lemma bounce_fields (s : GameState) :
    (s.bounce_walls.bounce_paddle1.bounce_paddle2).ball.x = s.ball.x ∧
    (s.bounce_walls.bounce_paddle1.bounce_paddle2).ball.color = s.ball.color ∧
    (s.bounce_walls.bounce_paddle1.bounce_paddle2).score = s.score ∧
    (s.bounce_walls.bounce_paddle1.bounce_paddle2).last_winner = s.last_winner ∧
    (s.bounce_walls.bounce_paddle1.bounce_paddle2).countdown_start = s.countdown_start ∧
    (s.bounce_walls.bounce_paddle1.bounce_paddle2).game_running = s.game_running ∧
    (s.bounce_walls.bounce_paddle1.bounce_paddle2).game_over = s.game_over := by
  simp only [GameState.bounce_walls, GameState.bounce_paddle1, GameState.bounce_paddle2]
  split_ifs <;> exact ⟨rfl, rfl, rfl, rfl, rfl, rfl, rfl⟩

/-- Projections of the scoring tail reset_ball (check_winner u p): the score
survives, the ball is recentered and stopped, and the flags, tags and
countdown are determined by whether the checked player has 3 points. -/
lemma reset_after_check_proj (u : GameState) (p : ℕ) (now : ℚ) :
    (GameState.reset_ball (GameState.check_winner u p) now).score = u.score ∧
    (GameState.reset_ball (GameState.check_winner u p) now).ball.x = SCREEN_WIDTH / 2 ∧
    (GameState.reset_ball (GameState.check_winner u p) now).ball.y = SCREEN_HEIGHT / 2 ∧
    (GameState.reset_ball (GameState.check_winner u p) now).ball.dx = 0 ∧
    (GameState.reset_ball (GameState.check_winner u p) now).ball.dy = 0 ∧
    ((3 ≤ (if p = 1 then u.score.player1 else u.score.player2)) →
      (GameState.reset_ball (GameState.check_winner u p) now).game_over = true ∧
      (GameState.reset_ball (GameState.check_winner u p) now).game_running = false ∧
      (GameState.reset_ball (GameState.check_winner u p) now).winner = some p ∧
      (GameState.reset_ball (GameState.check_winner u p) now).last_winner = none ∧
      (GameState.reset_ball (GameState.check_winner u p) now).countdown_start
        = u.countdown_start) ∧
    (((if p = 1 then u.score.player1 else u.score.player2) < 3) →
      (GameState.reset_ball (GameState.check_winner u p) now).game_over = u.game_over ∧
      (GameState.reset_ball (GameState.check_winner u p) now).game_running = u.game_running ∧
      (GameState.reset_ball (GameState.check_winner u p) now).winner = u.winner ∧
      (GameState.reset_ball (GameState.check_winner u p) now).last_winner = u.last_winner ∧
      (GameState.reset_ball (GameState.check_winner u p) now).countdown_start
        = (if (u.game_running && !u.game_over) = true then some now
           else u.countdown_start)) := by
  by_cases hw : 3 ≤ (if p = 1 then u.score.player1 else u.score.player2)
  · simp only [GameState.check_winner, if_pos hw, GameState.reset_ball]
    rw [if_neg (by simp)]
    exact ⟨rfl, rfl, rfl, rfl, rfl, fun _ => ⟨rfl, rfl, rfl, rfl, rfl⟩,
      fun hlt => absurd hw (not_le.mpr hlt)⟩
  · simp only [GameState.check_winner, if_neg hw, GameState.reset_ball]
    by_cases hg : (u.game_running && !u.game_over) = true
    · rw [if_pos hg, if_pos hg]
      exact ⟨rfl, rfl, rfl, rfl, rfl, fun hge => absurd hge hw,
        fun _ => ⟨rfl, rfl, rfl, rfl, rfl⟩⟩
    · rw [if_neg hg, if_neg hg]
      exact ⟨rfl, rfl, rfl, rfl, rfl, fun hge => absurd hge hw,
        fun _ => ⟨rfl, rfl, rfl, rfl, rfl⟩⟩

/-- When the ball has crossed the left boundary, handle_collisions runs the
Player 2 scoring tail on the bounced state. -/
lemma handle_collisions_eq_left (s : GameState) (now : ℚ)
    (h : s.ball.x - BALL_RADIUS ≤ 0) :
    s.handle_collisions now =
      GameState.reset_ball
        (GameState.check_winner
          { s.bounce_walls.bounce_paddle1.bounce_paddle2 with
            score := (s.bounce_walls.bounce_paddle1.bounce_paddle2).score.increment_player2 now
            last_winner := some 2 } 2) now := by
  simp only [GameState.handle_collisions]
  rw [if_pos (by rw [(bounce_fields s).1]; exact h)]

/-- When the ball has crossed the right boundary (and not the left one),
handle_collisions runs the Player 1 scoring tail on the bounced state. -/
lemma handle_collisions_eq_right (s : GameState) (now : ℚ)
    (h1 : ¬ s.ball.x - BALL_RADIUS ≤ 0) (h2 : s.ball.x + BALL_RADIUS ≥ SCREEN_WIDTH) :
    s.handle_collisions now =
      GameState.reset_ball
        (GameState.check_winner
          { s.bounce_walls.bounce_paddle1.bounce_paddle2 with
            score := (s.bounce_walls.bounce_paddle1.bounce_paddle2).score.increment_player1 now
            last_winner := some 1 } 1) now := by
  simp only [GameState.handle_collisions]
  rw [if_neg (by rw [(bounce_fields s).1]; exact h1),
    if_pos (by rw [(bounce_fields s).1]; exact h2)]

/-- When the ball is inside both horizontal boundaries, handle_collisions is
just the three bounce blocks. -/
lemma handle_collisions_eq_bounce (s : GameState) (now : ℚ)
    (h1 : ¬ s.ball.x - BALL_RADIUS ≤ 0) (h2 : ¬ s.ball.x + BALL_RADIUS ≥ SCREEN_WIDTH) :
    s.handle_collisions now = s.bounce_walls.bounce_paddle1.bounce_paddle2 := by
  simp only [GameState.handle_collisions]
  rw [if_neg (by rw [(bounce_fields s).1]; exact h1),
    if_neg (by rw [(bounce_fields s).1]; exact h2)]

/-- C4: during a rally (running, not over, no countdown), a ball beyond a
horizontal boundary scores for the opposite side: that counter alone is
incremented, the ball is recentered with zero velocity, last_winner holds
the scorer unless the point just ended the match (in which case the win
check cleared it), and a new countdown timestamp is started exactly when
the game is still running and not over afterward. -/
theorem C4_scoring_frame (s : GameState) (now : ℚ)
    (hrun : s.game_running = true) (hover : s.game_over = false)
    (hcd : s.countdown_start = none) :
    (s.ball.x - BALL_RADIUS ≤ 0 →
      ((s.handle_collisions now).score.player2 = s.score.player2 + 1 ∧
       (s.handle_collisions now).score.player1 = s.score.player1 ∧
       (s.handle_collisions now).ball.x = SCREEN_WIDTH / 2 ∧
       (s.handle_collisions now).ball.y = SCREEN_HEIGHT / 2 ∧
       (s.handle_collisions now).ball.dx = 0 ∧
       (s.handle_collisions now).ball.dy = 0 ∧
       ((s.handle_collisions now).game_over = false →
         (s.handle_collisions now).last_winner = some 2) ∧
       ((s.handle_collisions now).game_over = true →
         (s.handle_collisions now).last_winner = none) ∧
       ((s.handle_collisions now).countdown_start = some now ↔
         ((s.handle_collisions now).game_running = true ∧
          (s.handle_collisions now).game_over = false)))) ∧
    (¬ s.ball.x - BALL_RADIUS ≤ 0 → s.ball.x + BALL_RADIUS ≥ SCREEN_WIDTH →
      ((s.handle_collisions now).score.player1 = s.score.player1 + 1 ∧
       (s.handle_collisions now).score.player2 = s.score.player2 ∧
       (s.handle_collisions now).ball.x = SCREEN_WIDTH / 2 ∧
       (s.handle_collisions now).ball.y = SCREEN_HEIGHT / 2 ∧
       (s.handle_collisions now).ball.dx = 0 ∧
       (s.handle_collisions now).ball.dy = 0 ∧
       ((s.handle_collisions now).game_over = false →
         (s.handle_collisions now).last_winner = some 1) ∧
       ((s.handle_collisions now).game_over = true →
         (s.handle_collisions now).last_winner = none) ∧
       ((s.handle_collisions now).countdown_start = some now ↔
         ((s.handle_collisions now).game_running = true ∧
          (s.handle_collisions now).game_over = false)))) := by
  obtain ⟨hbx, hbc, hbsc, hblw, hbcd, hbgr, hbgo⟩ := bounce_fields s
  constructor
  · intro hL
    rw [handle_collisions_eq_left s now hL]
    obtain ⟨q1, q2, q3, q4, q5, qwin, qlose⟩ := reset_after_check_proj
      { s.bounce_walls.bounce_paddle1.bounce_paddle2 with
        score := (s.bounce_walls.bounce_paddle1.bounce_paddle2).score.increment_player2 now
        last_winner := some 2 } 2 now
    have hu2 : (if (2 : ℕ) = 1 then
        ({ s.bounce_walls.bounce_paddle1.bounce_paddle2 with
           score := (s.bounce_walls.bounce_paddle1.bounce_paddle2).score.increment_player2 now
           last_winner := some 2 } : GameState).score.player1
      else
        ({ s.bounce_walls.bounce_paddle1.bounce_paddle2 with
           score := (s.bounce_walls.bounce_paddle1.bounce_paddle2).score.increment_player2 now
           last_winner := some 2 } : GameState).score.player2) = s.score.player2 + 1 := by
      simp [Score.increment_player2, hbsc]
    refine ⟨by rw [q1]; simp [Score.increment_player2, hbsc],
      by rw [q1]; simp [Score.increment_player2, hbsc], q2, q3, q4, q5, ?_, ?_, ?_⟩
    · intro hnot
      by_cases hw : 3 ≤ s.score.player2 + 1
      · obtain ⟨t1, t2, t3, t4, t5⟩ := qwin (by rw [hu2]; exact hw)
        exact absurd (t1.symm.trans hnot) (by simp)
      · obtain ⟨t1, t2, t3, t4, t5⟩ := qlose (by rw [hu2]; exact not_le.mp hw)
        rw [t4]
    · intro hyes
      by_cases hw : 3 ≤ s.score.player2 + 1
      · obtain ⟨t1, t2, t3, t4, t5⟩ := qwin (by rw [hu2]; exact hw)
        rw [t4]
      · obtain ⟨t1, t2, t3, t4, t5⟩ := qlose (by rw [hu2]; exact not_le.mp hw)
        rw [t1] at hyes
        dsimp only at hyes
        rw [hbgo] at hyes
        exact absurd (hover.symm.trans hyes) (by simp)
    · by_cases hw : 3 ≤ s.score.player2 + 1
      · obtain ⟨t1, t2, t3, t4, t5⟩ := qwin (by rw [hu2]; exact hw)
        rw [t1, t2, t5]
        simp [hbcd, hcd]
      · obtain ⟨t1, t2, t3, t4, t5⟩ := qlose (by rw [hu2]; exact not_le.mp hw)
        rw [t1, t2, t5]
        simp [hbgr, hbgo, hrun, hover]
  · intro hL hR
    rw [handle_collisions_eq_right s now hL hR]
    obtain ⟨q1, q2, q3, q4, q5, qwin, qlose⟩ := reset_after_check_proj
      { s.bounce_walls.bounce_paddle1.bounce_paddle2 with
        score := (s.bounce_walls.bounce_paddle1.bounce_paddle2).score.increment_player1 now
        last_winner := some 1 } 1 now
    have hu1 : (if (1 : ℕ) = 1 then
        ({ s.bounce_walls.bounce_paddle1.bounce_paddle2 with
           score := (s.bounce_walls.bounce_paddle1.bounce_paddle2).score.increment_player1 now
           last_winner := some 1 } : GameState).score.player1
      else
        ({ s.bounce_walls.bounce_paddle1.bounce_paddle2 with
           score := (s.bounce_walls.bounce_paddle1.bounce_paddle2).score.increment_player1 now
           last_winner := some 1 } : GameState).score.player2) = s.score.player1 + 1 := by
      simp [Score.increment_player1, hbsc]
    refine ⟨by rw [q1]; simp [Score.increment_player1, hbsc],
      by rw [q1]; simp [Score.increment_player1, hbsc], q2, q3, q4, q5, ?_, ?_, ?_⟩
    · intro hnot
      by_cases hw : 3 ≤ s.score.player1 + 1
      · obtain ⟨t1, t2, t3, t4, t5⟩ := qwin (by rw [hu1]; exact hw)
        exact absurd (t1.symm.trans hnot) (by simp)
      · obtain ⟨t1, t2, t3, t4, t5⟩ := qlose (by rw [hu1]; exact not_le.mp hw)
        rw [t4]
    · intro hyes
      by_cases hw : 3 ≤ s.score.player1 + 1
      · obtain ⟨t1, t2, t3, t4, t5⟩ := qwin (by rw [hu1]; exact hw)
        rw [t4]
      · obtain ⟨t1, t2, t3, t4, t5⟩ := qlose (by rw [hu1]; exact not_le.mp hw)
        rw [t1] at hyes
        dsimp only at hyes
        rw [hbgo] at hyes
        exact absurd (hover.symm.trans hyes) (by simp)
    · by_cases hw : 3 ≤ s.score.player1 + 1
      · obtain ⟨t1, t2, t3, t4, t5⟩ := qwin (by rw [hu1]; exact hw)
        rw [t1, t2, t5]
        simp [hbcd, hcd]
      · obtain ⟨t1, t2, t3, t4, t5⟩ := qlose (by rw [hu1]; exact not_le.mp hw)
        rw [t1, t2, t5]
        simp [hbgr, hbgo, hrun, hover]

/-- C4 witness: a rally state with the ball past the left boundary; one
collision pass gives Player 2 the point, stops the ball and starts a
countdown. -/
theorem C4_witness :
    ({ GameState.new with
        game_running := true
        ball := { GameState.new.ball with x := 5 } } : GameState).ball.x - BALL_RADIUS ≤ 0 ∧
    (({ GameState.new with
        game_running := true
        ball := { GameState.new.ball with x := 5 } } : GameState).handle_collisions 7).score.player2
      = 0 + 1 ∧
    (({ GameState.new with
        game_running := true
        ball := { GameState.new.ball with x := 5 } } : GameState).handle_collisions 7).ball.dx
      = 0 := by
  have h := (C4_scoring_frame
    { GameState.new with
      game_running := true
      ball := { GameState.new.ball with x := 5 } } 7 rfl rfl rfl).1
    (by norm_num [BALL_RADIUS])
  exact ⟨by norm_num [BALL_RADIUS], h.1, h.2.2.2.2.1⟩

/-- The invariant behind C2, inductive over pause-free event sequences: an
active countdown has a stationary ball and a running game, a stopped game
has a stationary ball, and a running game is not over. -/
def VelocityInv (s : GameState) : Prop :=
  (s.countdown_start.isSome = true →
    s.ball.dx = 0 ∧ s.ball.dy = 0 ∧ s.game_running = true) ∧
  (s.game_running = false → s.ball.dx = 0 ∧ s.ball.dy = 0) ∧
  (s.game_running = true → s.game_over = false)

/-- The AI chase only moves the AI paddle: ball, countdown and flags are
untouched. -/
lemma update_ai_fields (s : GameState) (delta : ℚ) (hes : Bool) (err : ℚ) :
    (s.update_ai_paddle delta hes err).ball = s.ball ∧
    (s.update_ai_paddle delta hes err).countdown_start = s.countdown_start ∧
    (s.update_ai_paddle delta hes err).game_running = s.game_running ∧
    (s.update_ai_paddle delta hes err).game_over = s.game_over := by
  simp only [GameState.update_ai_paddle]
  split_ifs <;> exact ⟨rfl, rfl, rfl, rfl⟩

/-- The AI chase preserves the velocity invariant. -/
lemma update_ai_inv (s : GameState) (delta : ℚ) (hes : Bool) (err : ℚ)
    (h : VelocityInv s) : VelocityInv (s.update_ai_paddle delta hes err) := by
  obtain ⟨f1, f2, f3, f4⟩ := update_ai_fields s delta hes err
  refine ⟨fun hc => ?_, fun hr => ?_, fun hr => ?_⟩
  · rw [f2] at hc
    obtain ⟨a, b, c⟩ := h.1 hc
    exact ⟨by rw [f1]; exact a, by rw [f1]; exact b, by rw [f3]; exact c⟩
  · rw [f3] at hr
    obtain ⟨a, b⟩ := h.2.1 hr
    exact ⟨by rw [f1]; exact a, by rw [f1]; exact b⟩
  · rw [f3] at hr
    rw [f4]
    exact h.2.2 hr

/-- Once the countdown has expired, handle_countdown clears it; the run and
over flags and the key set survive the launch. -/
lemma handle_countdown_of_ge (s : GameState) (cs now delta : ℚ) (rH rV : Bool)
    (h : COUNTDOWN_DURATION ≤ now - cs) :
    (s.handle_countdown cs now delta rH rV).countdown_start = none ∧
    (s.handle_countdown cs now delta rH rV).game_running = s.game_running ∧
    (s.handle_countdown cs now delta rH rV).game_over = s.game_over ∧
    (s.handle_countdown cs now delta rH rV).pressed_keys = s.pressed_keys := by
  simp only [GameState.handle_countdown, GameState.start_ball]
  rw [if_pos h]
  split_ifs <;> exact ⟨rfl, rfl, rfl, rfl⟩

/-- The scoring tail reset_ball (check_winner u p) preserves the velocity
invariant for any rally input (running, not over, no countdown). -/
lemma scoring_tail_inv (u : GameState) (p : ℕ) (now : ℚ)
    (hurun : u.game_running = true) (huover : u.game_over = false)
    (hucd : u.countdown_start = none) :
    VelocityInv (GameState.reset_ball (GameState.check_winner u p) now) := by
  obtain ⟨q1, q2, q3, q4, q5, qwin, qlose⟩ := reset_after_check_proj u p now
  by_cases hw : 3 ≤ (if p = 1 then u.score.player1 else u.score.player2)
  · obtain ⟨t1, t2, t3, t4, t5⟩ := qwin hw
    refine ⟨fun hc => ?_, fun _ => ⟨q4, q5⟩, fun hr => ?_⟩
    · rw [t5, hucd] at hc
      exact absurd hc (by simp)
    · exact absurd (t2.symm.trans hr) (by simp)
  · obtain ⟨t1, t2, t3, t4, t5⟩ := qlose (not_le.mp hw)
    refine ⟨fun _ => ⟨q4, q5, ?_⟩, fun _ => ⟨q4, q5⟩, fun _ => ?_⟩
    · rw [t2, hurun]
    · rw [t1, huover]

/-- One collision pass from a rally state preserves the velocity invariant. -/
lemma handle_collisions_inv (s : GameState) (now : ℚ) (hrun : s.game_running = true)
    (hover : s.game_over = false) (hcd : s.countdown_start = none) :
    VelocityInv (s.handle_collisions now) := by
  obtain ⟨hbx, hbc, hbsc, hblw, hbcd, hbgr, hbgo⟩ := bounce_fields s
  by_cases hL : s.ball.x - BALL_RADIUS ≤ 0
  · rw [handle_collisions_eq_left s now hL]
    exact scoring_tail_inv _ 2 now (by dsimp only; rw [hbgr]; exact hrun)
      (by dsimp only; rw [hbgo]; exact hover)
      (by dsimp only; rw [hbcd]; exact hcd)
  · by_cases hR : s.ball.x + BALL_RADIUS ≥ SCREEN_WIDTH
    · rw [handle_collisions_eq_right s now hL hR]
      exact scoring_tail_inv _ 1 now (by dsimp only; rw [hbgr]; exact hrun)
        (by dsimp only; rw [hbgo]; exact hover)
        (by dsimp only; rw [hbcd]; exact hcd)
    · rw [handle_collisions_eq_bounce s now hL hR]
      refine ⟨fun hc => ?_, fun hr => ?_, fun _ => by rw [hbgo]; exact hover⟩
      · rw [hbcd, hcd] at hc
        exact absurd hc (by simp)
      · rw [hbgr] at hr
        exact absurd (hrun.symm.trans hr) (by simp)

/-- With the game stopped and no countdown, a frame is a no-op. -/
lemma update_not_running (s : GameState) (now delta : ℚ) (r : FrameRng)
    (h1 : s.game_running = false) (h2 : s.countdown_start = none) :
    s.update now delta r = s := by
  simp [GameState.update, h1, h2]

/-- With the game running and no countdown, a frame is input, ball advance,
collision pass and AI chase. -/
lemma update_running_no_countdown (s : GameState) (now delta : ℚ) (r : FrameRng)
    (hex : s.should_exit = false) (hcd : s.countdown_start = none)
    (hrun : s.game_running = true) :
    s.update now delta r =
      (({ s.handle_input delta with
          ball := (s.handle_input delta).ball.update delta }).handle_collisions
        now).update_ai_paddle delta r.hes r.err := by
  simp only [GameState.update, hex, Bool.false_eq_true, if_false, hcd]
  rw [if_pos hrun]
  rw [if_pos (by rw [(handle_input_fields s delta).2.1]; exact hcd)]

/-- With the game running and a live (unexpired) countdown, a frame is the
countdown step followed by human input only. -/
lemma update_countdown_live (s : GameState) (now delta : ℚ) (r : FrameRng) (cs : ℚ)
    (hex : s.should_exit = false) (hcd : s.countdown_start = some cs)
    (hlt : now - cs < COUNTDOWN_DURATION) (hrun : s.game_running = true) :
    s.update now delta r =
      (s.handle_countdown cs now delta r.launchH r.launchV).handle_input delta := by
  simp only [GameState.update, hex, Bool.false_eq_true, if_false, hcd]
  rw [if_pos (by
    rw [(handle_countdown_of_lt s cs now delta r.launchH r.launchV hlt).2.2.2.1]
    exact hrun)]
  rw [if_neg (by
    rw [(handle_input_fields _ delta).2.1,
      (handle_countdown_of_lt s cs now delta r.launchH r.launchV hlt).2.2.1, hcd]
    simp)]

/-- With the game running and an expired countdown, a frame launches the
ball and then runs the full rally step. -/
lemma update_countdown_expired (s : GameState) (now delta : ℚ) (r : FrameRng) (cs : ℚ)
    (hex : s.should_exit = false) (hcd : s.countdown_start = some cs)
    (hge : COUNTDOWN_DURATION ≤ now - cs) (hrun : s.game_running = true) :
    s.update now delta r =
      ((({ (s.handle_countdown cs now delta r.launchH r.launchV).handle_input delta with
          ball := ((s.handle_countdown cs now delta
            r.launchH r.launchV).handle_input delta).ball.update delta }).handle_collisions
        now).update_ai_paddle delta r.hes r.err) := by
  simp only [GameState.update, hex, Bool.false_eq_true, if_false, hcd]
  rw [if_pos (by
    rw [(handle_countdown_of_ge s cs now delta r.launchH r.launchV hge).2.1]
    exact hrun)]
  rw [if_pos (by
    rw [(handle_input_fields _ delta).2.1,
      (handle_countdown_of_ge s cs now delta r.launchH r.launchV hge).1])]

/-- The rally step (input, ball advance, collision pass, AI chase) from any
rally state preserves the velocity invariant. -/
lemma rally_phase_inv (X : GameState) (now delta : ℚ) (hes : Bool) (err : ℚ)
    (hXr : X.game_running = true) (hXo : X.game_over = false)
    (hXc : X.countdown_start = none) :
    VelocityInv ((({ X.handle_input delta with
        ball := (X.handle_input delta).ball.update delta }).handle_collisions
      now).update_ai_paddle delta hes err) := by
  apply update_ai_inv
  apply handle_collisions_inv
  · show (X.handle_input delta).game_running = true
    rw [(handle_input_fields X delta).2.2.1]
    exact hXr
  · show (X.handle_input delta).game_over = false
    rw [(handle_input_fields X delta).2.2.2]
    exact hXo
  · show (X.handle_input delta).countdown_start = none
    rw [(handle_input_fields X delta).2.1]
    exact hXc

/-- Every non-pause event preserves the velocity invariant. -/
lemma step_inv (s : GameState) (e : Event) (hp : e.isPause = false)
    (h : VelocityInv s) : VelocityInv (step s e) := by
  cases e with
  | keyUp k => exact h
  | keyDown k now =>
    cases k with
    | S =>
      show VelocityInv (s.key_down_event KeyCode.S now)
      by_cases hc : (!s.game_running && !s.game_over) = true
      · have hc' := hc
        simp only [Bool.and_eq_true, Bool.not_eq_true'] at hc'
        obtain ⟨hgr, hgo⟩ := hc'
        simp only [GameState.key_down_event]
        rw [if_pos hc]
        exact ⟨fun _ => ⟨(h.2.1 hgr).1, (h.2.1 hgr).2, rfl⟩,
          fun hr => absurd hr (by simp), fun _ => hgo⟩
      · simp only [GameState.key_down_event]
        rw [if_neg hc]
        exact h
    | P => simp [Event.isPause] at hp
    | E => exact h
    | R =>
      exact ⟨fun hc => absurd hc (by simp [step, GameState.key_down_event]),
        fun _ => ⟨rfl, rfl⟩, fun hr => absurd hr (by simp [step, GameState.key_down_event])⟩
    | Up => exact h
    | Down => exact h
    | Other => exact h
  | frame now delta r =>
    show VelocityInv (s.update now delta r)
    by_cases hex : s.should_exit = true
    · have he : s.update now delta r = s := by simp [GameState.update, hex]
      rw [he]
      exact h
    · have hex' : s.should_exit = false := by
        cases hse : s.should_exit
        · rfl
        · exact absurd hse hex
      cases hcs : s.countdown_start with
      | some cs =>
        obtain ⟨hdx0, hdy0, hrun⟩ := h.1 (by rw [hcs]; rfl)
        have hover : s.game_over = false := h.2.2 hrun
        by_cases hexp : COUNTDOWN_DURATION ≤ now - cs
        · rw [update_countdown_expired s now delta r cs hex' hcs hexp hrun]
          apply rally_phase_inv
          · rw [(handle_countdown_of_ge s cs now delta r.launchH r.launchV hexp).2.1]
            exact hrun
          · rw [(handle_countdown_of_ge s cs now delta r.launchH r.launchV hexp).2.2.1]
            exact hover
          · exact (handle_countdown_of_ge s cs now delta r.launchH r.launchV hexp).1
        · rw [update_countdown_live s now delta r cs hex' hcs (not_le.mp hexp) hrun]
          obtain ⟨f1, f2, f3, f4⟩ :=
            handle_input_fields (s.handle_countdown cs now delta r.launchH r.launchV) delta
          obtain ⟨g1, g2, g3, g4, g5, g6⟩ :=
            handle_countdown_of_lt s cs now delta r.launchH r.launchV (not_le.mp hexp)
          refine ⟨fun _ => ⟨?_, ?_, ?_⟩, fun hr => ?_, fun _ => ?_⟩
          · rw [f1, g2]
            exact hdx0
          · rw [f1, g2]
            exact hdy0
          · rw [f3, g4]
            exact hrun
          · rw [f3, g4] at hr
            exact absurd (hrun.symm.trans hr) (by simp)
          · rw [f4, g5]
            exact hover
      | none =>
        by_cases hruncase : s.game_running = true
        · have hover : s.game_over = false := h.2.2 hruncase
          rw [update_running_no_countdown s now delta r hex' hcs hruncase]
          exact rally_phase_inv s now delta r.hes r.err hruncase hover hcs
        · have hrun' : s.game_running = false := by
            cases hgr : s.game_running
            · rfl
            · exact absurd hgr hruncase
          rw [update_not_running s now delta r hrun' hcs]
          exact h

/-- Pause-free event sequences preserve the velocity invariant. -/
lemma run_inv (es : List Event) (s : GameState)
    (hnp : ∀ e ∈ es, e.isPause = false) (h : VelocityInv s) :
    VelocityInv (run s es) := by
  induction es generalizing s with
  | nil => exact h
  | cons e es ih =>
    exact ih (step s e) (fun e' he' => hnp e' (List.mem_cons_of_mem e he'))
      (step_inv s e (hnp e (List.mem_cons_self e es)) h)

/-- C2: the claim asserts the countdown-implies-stationary invariant over
all reachable states. The Pause command breaks it: Start, one frame past
the countdown (launching the ball), Pause, then Start again yields an
active countdown while the ball's stored horizontal velocity is nonzero. -/
theorem C2_counterexample :
    (run GameState.new
      [Event.keyDown KeyCode.S 0,
       Event.frame 3 (1/100) { launchH := true, launchV := true, hes := true, err := 0 },
       Event.keyDown KeyCode.P 0,
       Event.keyDown KeyCode.S 4]).countdown_start.isSome = true ∧
    (run GameState.new
      [Event.keyDown KeyCode.S 0,
       Event.frame 3 (1/100) { launchH := true, launchV := true, hes := true, err := 0 },
       Event.keyDown KeyCode.P 0,
       Event.keyDown KeyCode.S 4]).ball.dx ≠ 0 := by
  constructor <;>
    norm_num +decide [run, step, GameState.update, GameState.key_down_event,
      GameState.handle_countdown, GameState.start_ball, GameState.handle_input,
      GameState.check_winner, GameState.handle_collisions, GameState.bounce_walls,
      GameState.bounce_paddle1, GameState.bounce_paddle2, GameState.reset_ball,
      GameState.update_ai_paddle, GameState.new, Ball.new, Ball.update, Paddle.new,
      Paddle.move_by, rustClamp, rustSignum, Score.new, Score.increment_player1,
      Score.increment_player2, insertKey, SCREEN_WIDTH, SCREEN_HEIGHT, PADDLE_WIDTH,
      PADDLE_HEIGHT, BALL_RADIUS, PLAYER_PADDLE_SPEED, AI_PADDLE_SPEED, BALL_SPEED,
      COLLISION_TOLERANCE, COUNTDOWN_DURATION]

/-- C2 (amended): in every state reachable from the initial state by a
sequence of events that never presses Pause, an active countdown implies
both components of the ball's velocity are exactly zero. -/
theorem C2_countdown_zero_velocity_no_pause (es : List Event)
    (hnp : ∀ e ∈ es, e.isPause = false)
    (hcd : (run GameState.new es).countdown_start.isSome = true) :
    (run GameState.new es).ball.dx = 0 ∧ (run GameState.new es).ball.dy = 0 := by
  have h := run_inv es GameState.new hnp
    ⟨fun hc => Bool.noConfusion hc, fun _ => ⟨rfl, rfl⟩, fun hr => Bool.noConfusion hr⟩
  exact ⟨(h.1 hcd).1, (h.1 hcd).2.1⟩

/-- C2 witness: the amended theorem applied to the pause-free sequence that
just presses Start. -/
theorem C2_witness :
    (∀ e ∈ [Event.keyDown KeyCode.S 0], e.isPause = false) ∧
    (run GameState.new [Event.keyDown KeyCode.S 0]).countdown_start.isSome = true ∧
    ((run GameState.new [Event.keyDown KeyCode.S 0]).ball.dx = 0 ∧
     (run GameState.new [Event.keyDown KeyCode.S 0]).ball.dy = 0) :=
  ⟨by decide, by decide,
    C2_countdown_zero_velocity_no_pause [Event.keyDown KeyCode.S 0] (by decide) (by decide)⟩
